import Mathlib

/-!
Shallow embedding of the bootstrap-coordination core of
repository-service-tuf-api.

Strings are embedded as lists of characters (`Str`), so that the split
operation used by the decoder is structurally recursive and computable.
The external key-value settings snapshot is embedded as a total map from
keys to optional string values; the two writers are functions from
snapshot to snapshot, and the state reader is a function of the fresh
value of the `BOOTSTRAP` key.
-/

/-- Strings of the embedded program, as lists of characters. -/
abbrev Str := List Char

/-- Python `s.split(sep)` for a single-character separator `c`:
splits on every occurrence of `c`; the empty string yields `[[]]`. -/
def splitOnChar (c : Char) : Str → List Str
  | [] => [[]]
  | x :: xs =>
    let r := splitOnChar c xs
    if x = c then [] :: r
    else
      match r with
      | [] => [[x]]
      | y :: ys => (x :: y) :: ys

/-- The single register key used by the coordinator, `"BOOTSTRAP"`. -/
def BOOTSTRAP_KEY : Str := "BOOTSTRAP".data

/-- The dataclass `BootstrapState(bootstrap, state=None, task_id=None)`. -/
structure BootstrapState where
  bootstrap : Bool
  state : Option Str := none
  task_id : Option Str := none
deriving DecidableEq, Repr

/-- A full settings snapshot (`settings_repository.as_dict(...)`):
a map from key to optional string value. -/
abbrev Snapshot := Str → Option Str

/-- Mutation of one key of a snapshot, `settings_data[k] = v`. -/
def setKey (s : Snapshot) (k : Str) (v : Option Str) : Snapshot :=
  fun k2 => if k2 = k then v else s k2

/-- The two-component encoding written by the pre-lock: `f"pre-{task_id}"`. -/
def preEncoding (task_id : Str) : Str := "pre-".data ++ task_id

/-- `pre_lock_bootstrap(task_id)`: reads the full snapshot, sets the
`BOOTSTRAP` key to `"pre-<task_id>"`, writes the full snapshot back. -/
def pre_lock_bootstrap (settings_data : Snapshot) (task_id : Str) : Snapshot :=
  setKey settings_data BOOTSTRAP_KEY (some (preEncoding task_id))

/-- `release_bootstrap_lock()`: reads the full snapshot, sets the
`BOOTSTRAP` key to `None`, writes the full snapshot back. -/
def release_bootstrap_lock (settings_data : Snapshot) : Snapshot :=
  setKey settings_data BOOTSTRAP_KEY none

/-- The literal `"finished"` stored in the state field of a finished view. -/
def finishedStr : Str := "finished".data

/-- `bootstrap_state()`: decodes the freshly read value of the `BOOTSTRAP`
key. `None` yields the absent view; one component (`len(split) == 1`)
yields the finished view with `task_id` set to the whole value; two
components yield the intermediate view with the first component as state
and the second as task id. Any other component count falls through the
`if`/`elif` chain and the Python function implicitly returns `None`,
embedded here as `none`. -/
def bootstrap_state (bootstrap : Option Str) : Option BootstrapState :=
  match bootstrap with
  | none => some { bootstrap := false, state := none, task_id := none }
  | some b =>
    match splitOnChar '-' b with
    | [_] => some { bootstrap := true, state := some finishedStr, task_id := some b }
    | [st, tid] => some { bootstrap := false, state := some st, task_id := some tid }
    | _ => none

/-- `bootstrap_state` at the level of a snapshot: the reader reloads and
fetches the fresh value of the `BOOTSTRAP` key, then decodes it. -/
def bootstrap_state_of (s : Snapshot) : Option BootstrapState :=
  bootstrap_state (s BOOTSTRAP_KEY)

/-- One hexadecimal digit character: `0`..`9` for values below ten,
`a`..`f` for ten to fifteen (ASCII 48 + n, resp. 87 + n). -/
def hexDigitChar (n : Nat) : Char :=
  if n < 10 then Char.ofNat (48 + n) else Char.ofNat (87 + n)

/-- Fixed-width lowercase hexadecimal rendering of a natural number,
most significant digit first (Python `"%0*x" % (w, n)`). -/
def natToHex : Nat → Nat → Str
  | 0, _ => []
  | w + 1, n => natToHex w (n / 16) ++ [hexDigitChar (n % 16)]

/-- `get_task_id()`, i.e. `uuid4().hex`: the 128 random bits of the UUID
are taken as an explicit parameter; `.hex` renders them as 32 lowercase
hexadecimal characters with no separators. -/
def get_task_id (randomBits : Nat) : Str := natToHex 32 (randomBits % 2 ^ 128)

/-- The caller-visible task status vocabulary of the status endpoint. -/
inductive TaskState
  | PENDING
  | RECEIVED
  | PRE_RUN
  | RUNNING
  | FAILURE
  | SUCCESS
deriving DecidableEq, Repr

/-- The status response: a task state and optional auxiliary result. -/
structure TaskStatusResponse where
  task_state : TaskState
  result : Option Str := none
deriving DecidableEq, Repr

/-- Modelled from the spec: the body of `tasks.get`, invoked by the
endpoint `get(params)` in `api/tasks.py`, is not among the source files
(only its caller is). Per the spec, with no task id supplied it returns
the status `PENDING` ("no such task") with no auxiliary result; with an
id it surfaces the execution engine's state and result for that id. -/
def tasksGet (task_id : Option Str) (engineState : Str → TaskState)
    (engineResult : Str → Option Str) : TaskStatusResponse :=
  match task_id with
  | none => { task_state := TaskState.PENDING, result := none }
  | some tid => { task_state := engineState tid, result := engineResult tid }

/-- A string free of the separator splits into a single component. -/
theorem splitOnChar_of_not_mem (c : Char) (xs : Str) (h : c ∉ xs) :
    splitOnChar c xs = [xs] := by
  induction xs with
  | nil => rfl
  | cons x xs ih =>
    have hx : x ≠ c := fun he => h (he ▸ List.mem_cons_self x xs)
    have hxs : c ∉ xs := fun hm => h (List.mem_cons_of_mem x hm)
    simp [splitOnChar, hx, ih hxs]

/-- Splitting at the first separator occurrence: if `c` does not occur in
`xs`, then `xs ++ c :: ys` splits into `xs` followed by the split of `ys`. -/
theorem splitOnChar_append (c : Char) (xs ys : Str) (h : c ∉ xs) :
    splitOnChar c (xs ++ c :: ys) = xs :: splitOnChar c ys := by
  induction xs with
  | nil => simp [splitOnChar]
  | cons x xs ih =>
    have hx : x ≠ c := fun he => h (he ▸ List.mem_cons_self x xs)
    have hxs : c ∉ xs := fun hm => h (List.mem_cons_of_mem x hm)
    simp [splitOnChar, hx, ih hxs]

/-- A two-component encoding with separator-free components splits into
exactly those two components. -/
theorem splitOnChar_two (c : Char) (xs ys : Str) (hx : c ∉ xs) (hy : c ∉ ys) :
    splitOnChar c (xs ++ c :: ys) = [xs, ys] := by
  rw [splitOnChar_append c xs ys hx, splitOnChar_of_not_mem c ys hy]

/-- Claim C1: round-trip law over the three encoding shapes. For every
phase name and task id free of the delimiter, decoding the two-component
encoding `phase ++ "-" ++ taskId` recovers the pair, decoding the
one-component finished encoding recovers the task id with state
`"finished"`, and decoding an absent register value yields the absent
view; in particular, `bootstrap_state` read after `pre_lock_bootstrap`
recovers state `"pre"` and the task id. -/
theorem C1_round_trip (phase task_id : Str)
    (hp : '-' ∉ phase) (ht : '-' ∉ task_id) :
    bootstrap_state (some (phase ++ '-' :: task_id)) =
      some { bootstrap := false, state := some phase, task_id := some task_id }
    ∧ bootstrap_state (some task_id) =
      some { bootstrap := true, state := some finishedStr, task_id := some task_id }
    ∧ bootstrap_state none =
      some { bootstrap := false, state := none, task_id := none }
    ∧ ∀ s : Snapshot,
        bootstrap_state_of (pre_lock_bootstrap s task_id) =
          some { bootstrap := false, state := some "pre".data,
                 task_id := some task_id } := by
  refine ⟨?_, ?_, rfl, ?_⟩
  · simp [bootstrap_state, splitOnChar_two '-' phase task_id hp ht]
  · simp [bootstrap_state, splitOnChar_of_not_mem '-' task_id ht]
  · intro s
    have hkey : pre_lock_bootstrap s task_id BOOTSTRAP_KEY =
        some (preEncoding task_id) := by
      simp [pre_lock_bootstrap, setKey]
    have hsplit : splitOnChar '-' ('p' :: 'r' :: 'e' :: '-' :: task_id) =
        [['p', 'r', 'e'], task_id] :=
      splitOnChar_two '-' ['p', 'r', 'e'] task_id (by decide) ht
    simp [bootstrap_state_of, hkey, preEncoding, bootstrap_state, hsplit]

/-- Witness for C1 at phase `"signing"` and task id `"abc123"`. -/
theorem C1_round_trip_witness :
    ('-' ∉ "signing".data) ∧ ('-' ∉ "abc123".data) ∧
    bootstrap_state (some ("signing".data ++ '-' :: "abc123".data)) =
      some { bootstrap := false, state := some "signing".data,
             task_id := some "abc123".data } :=
  ⟨by decide, by decide,
    (C1_round_trip "signing".data "abc123".data (by decide) (by decide)).1⟩

/-- Counterexample to claim C2: on the three-component value `"a-b-c"`,
`bootstrap_state` does not return the absent-like view (and does not
log); the Python function falls off the end and returns `None`, embedded
as `none`. -/
theorem C2_counterexample :
    bootstrap_state (some "a-b-c".data) = none
    ∧ bootstrap_state (some "a-b-c".data) ≠
        some { bootstrap := false, state := none, task_id := none } := by
  decide

/-- Claim C2 amended: for every register value with more than two
components, `bootstrap_state` returns no view at all (the Python
function implicitly returns `None`): it does not raise and does not
misparse, but it neither logs nor produces the absent view. -/
theorem C2_amended (b : Str) (h2 : 2 < (splitOnChar '-' b).length) :
    bootstrap_state (some b) = none := by
  rcases hs : splitOnChar '-' b with _ | ⟨x, _ | ⟨y, _ | ⟨z, rest⟩⟩⟩ <;>
      simp [hs] at h2
  simp [bootstrap_state, hs]

/-- Witness for C2 amended at the value `"a-b-c"`. -/
theorem C2_amended_witness :
    2 < (splitOnChar '-' "a-b-c".data).length
    ∧ bootstrap_state (some "a-b-c".data) = none :=
  ⟨by decide, C2_amended "a-b-c".data (by decide)⟩

/-- Claim C3: every non-null register value with exactly one component
decodes to the finished view, with `task_id` the whole value. -/
theorem C3_one_component (b : Str) (h : (splitOnChar '-' b).length = 1) :
    bootstrap_state (some b) =
      some { bootstrap := true, state := some finishedStr, task_id := some b } := by
  rcases hs : splitOnChar '-' b with _ | ⟨x, _ | ⟨y, rest⟩⟩ <;>
      simp [hs] at h
  simp [bootstrap_state, hs]

/-- Witness for C3 at the value `"abc123"`. -/
theorem C3_one_component_witness :
    (splitOnChar '-' "abc123".data).length = 1
    ∧ bootstrap_state (some "abc123".data) =
        some { bootstrap := true, state := some finishedStr,
               task_id := some "abc123".data } :=
  ⟨by decide, C3_one_component "abc123".data (by decide)⟩

/-- Claim C4: every register value with exactly two components decodes
to the intermediate view: not bootstrapped, state the first component,
task id the second. -/
theorem C4_two_components (b st tid : Str) (h : splitOnChar '-' b = [st, tid]) :
    bootstrap_state (some b) =
      some { bootstrap := false, state := some st, task_id := some tid } := by
  simp [bootstrap_state, h]

/-- Witness for C4 at the value `"signing-xyz789"`. -/
theorem C4_two_components_witness :
    splitOnChar '-' "signing-xyz789".data = ["signing".data, "xyz789".data]
    ∧ bootstrap_state (some "signing-xyz789".data) =
        some { bootstrap := false, state := some "signing".data,
               task_id := some "xyz789".data } :=
  ⟨by decide,
    C4_two_components "signing-xyz789".data "signing".data "xyz789".data (by decide)⟩

/-- Claim C5: for every prior snapshot content, `release_bootstrap_lock`
followed by `bootstrap_state` yields the absent view: not bootstrapped,
state null, task id null. -/
theorem C5_release_then_state (s : Snapshot) :
    bootstrap_state_of (release_bootstrap_lock s) =
      some { bootstrap := false, state := none, task_id := none } := by
  simp [bootstrap_state_of, release_bootstrap_lock, setKey, bootstrap_state]

/-- Counterexample to claim C6: on the one-component value `"deadbeef"`
the returned view has `bootstrap = true` but its state field is
`some "finished"`, not null. -/
theorem C6_counterexample :
    bootstrap_state (some "deadbeef".data) =
      some { bootstrap := true, state := some finishedStr,
             task_id := some "deadbeef".data }
    ∧ (some finishedStr : Option Str) ≠ none := by
  decide

/-- Claim C6 amended: in every view `bootstrap_state` returns, the state
field is `"finished"` (not null) whenever `bootstrap` is true, is null
exactly when the register value is absent, and on a two-component value
equals the first component (the phase name). -/
theorem C6_amended (reg : Option Str) (bs : BootstrapState)
    (h : bootstrap_state reg = some bs) :
    (bs.bootstrap = true → bs.state = some finishedStr)
    ∧ (bs.state = none ↔ reg = none)
    ∧ (∀ b st tid, reg = some b → splitOnChar '-' b = [st, tid] →
        bs.state = some st) := by
  rcases reg with _ | b
  · simp [bootstrap_state] at h
    subst h
    simp
  · rcases hs : splitOnChar '-' b with _ | ⟨x, _ | ⟨y, _ | ⟨z, rest⟩⟩⟩ <;>
      simp [bootstrap_state, hs] at h
    · subst h
      simp
      intro b2 st tid hb2 hsp
      rw [← hb2, hs] at hsp
      exact absurd hsp (by simp)
    · subst h
      simp
      intro b2 st tid hb2 hsp
      rw [← hb2, hs] at hsp
      simp at hsp
      exact hsp.1

/-- Witness for C6 amended at the register value `"pre-w1"`. -/
theorem C6_amended_witness :
    ((some "pre".data : Option Str) = none ↔ (some "pre-w1".data : Option Str) = none) :=
  (C6_amended (some "pre-w1".data)
    { bootstrap := false, state := some "pre".data, task_id := some "w1".data }
    (by decide)).2.1

/-- Claim C7: frame condition on the settings snapshot. Both writers
read the full snapshot, mutate only the `BOOTSTRAP` field (to the
`"pre-<taskId>"` encoding, respectively to `None`), and write the full
snapshot back: every other key is unchanged by either operation. -/
theorem C7_frame (s : Snapshot) (t : Str) (k : Str) (hk : k ≠ BOOTSTRAP_KEY) :
    pre_lock_bootstrap s t k = s k
    ∧ release_bootstrap_lock s k = s k
    ∧ pre_lock_bootstrap s t BOOTSTRAP_KEY = some (preEncoding t)
    ∧ release_bootstrap_lock s BOOTSTRAP_KEY = none := by
  refine ⟨?_, ?_, ?_, ?_⟩ <;>
    simp [pre_lock_bootstrap, release_bootstrap_lock, setKey, hk]

/-- A concrete example snapshot holding one unrelated key. -/
def snapshotExample : Snapshot :=
  fun k => if k = "TIMEOUT".data then some "60".data else none

/-- Witness for C7 at the unrelated key `"TIMEOUT"`. -/
theorem C7_frame_witness :
    ("TIMEOUT".data ≠ BOOTSTRAP_KEY)
    ∧ pre_lock_bootstrap snapshotExample "abc999".data "TIMEOUT".data =
        snapshotExample "TIMEOUT".data
    ∧ release_bootstrap_lock snapshotExample "TIMEOUT".data =
        snapshotExample "TIMEOUT".data :=
  have h := C7_frame snapshotExample "abc999".data "TIMEOUT".data (by decide)
  ⟨by decide, h.1, h.2.1⟩

/-- Claim C8: the status query with no task id supplied returns the
status `PENDING` with no auxiliary result, for every state of the
execution engine's stores, and never fails. -/
theorem C8_no_task_id (engineState : Str → TaskState)
    (engineResult : Str → Option Str) :
    tasksGet none engineState engineResult =
      { task_state := TaskState.PENDING, result := none } := rfl

/-- Claim C9: invariant of every view `bootstrap_state` returns: the
state field is null iff the task id field is null, and whenever
`bootstrap` is true, the state is `"finished"` and the task id is the
full register value — `bootstrap` is never true with a null task id or
with any other state. -/
theorem C9_invariant (reg : Option Str) (bs : BootstrapState)
    (h : bootstrap_state reg = some bs) :
    (bs.state = none ↔ bs.task_id = none)
    ∧ (bs.bootstrap = true →
        bs.state = some finishedStr ∧ ∃ v, reg = some v ∧ bs.task_id = some v) := by
  rcases reg with _ | b
  · simp [bootstrap_state] at h
    subst h
    simp
  · rcases hs : splitOnChar '-' b with _ | ⟨x, _ | ⟨y, _ | ⟨z, rest⟩⟩⟩ <;>
      simp [bootstrap_state, hs] at h <;> subst h <;> simp

/-- Witness for C9 at the register value `"cafe42"`. -/
theorem C9_invariant_witness :
    ((some finishedStr : Option Str) = none ↔ (some "cafe42".data : Option Str) = none) :=
  (C9_invariant (some "cafe42".data)
    { bootstrap := true, state := some finishedStr, task_id := some "cafe42".data }
    (by decide)).1

/-- The sixteen lowercase hexadecimal digit characters. -/
def hexChars : Str := "0123456789abcdef".data

/-- Every digit below sixteen renders as a lowercase hexadecimal
character. -/
theorem hexDigitChar_mem (m : Nat) (hm : m < 16) : hexDigitChar m ∈ hexChars := by
  interval_cases m <;> decide

/-- `natToHex` renders exactly `w` characters. -/
theorem natToHex_length (w n : Nat) : (natToHex w n).length = w := by
  induction w generalizing n with
  | zero => rfl
  | succ w ih => simp [natToHex, ih]

/-- Every character of a `natToHex` rendering is a hexadecimal digit. -/
theorem natToHex_mem (w n : Nat) (ch : Char) (h : ch ∈ natToHex w n) :
    ch ∈ hexChars := by
  induction w generalizing n with
  | zero => simp [natToHex] at h
  | succ w ih =>
    simp [natToHex] at h
    rcases h with h | h
    · exact ih (n / 16) h
    · exact h ▸ hexDigitChar_mem (n % 16) (Nat.mod_lt _ (by norm_num))

/-- Claim C10: every register value this subsystem writes decodes
unambiguously. `get_task_id` returns a 32-character lowercase
hexadecimal token that never contains the `-` delimiter, so the value
stored by `pre_lock_bootstrap (get_task_id ...)` splits into exactly two
components — never the one-component finished form, never the undefined
more-than-two-component case — and `release_bootstrap_lock` always
stores `None`. -/
theorem C10_writer_values (r : Nat) :
    (get_task_id r).length = 32
    ∧ (∀ ch ∈ get_task_id r, ch ∈ hexChars)
    ∧ '-' ∉ get_task_id r
    ∧ (∀ s : Snapshot,
        pre_lock_bootstrap s (get_task_id r) BOOTSTRAP_KEY =
          some (preEncoding (get_task_id r))
        ∧ (splitOnChar '-' (preEncoding (get_task_id r))).length = 2)
    ∧ (∀ s : Snapshot, release_bootstrap_lock s BOOTSTRAP_KEY = none) := by
  have hmem : ∀ ch ∈ get_task_id r, ch ∈ hexChars := fun ch hch =>
    natToHex_mem 32 (r % 2 ^ 128) ch hch
  have hnd : '-' ∉ get_task_id r := fun hd => by
    have := hmem '-' hd
    revert this
    decide
  refine ⟨natToHex_length 32 (r % 2 ^ 128), hmem, hnd, ?_, ?_⟩
  · intro s
    refine ⟨by simp [pre_lock_bootstrap, setKey], ?_⟩
    have hsplit : splitOnChar '-' ('p' :: 'r' :: 'e' :: '-' :: get_task_id r) =
        [['p', 'r', 'e'], get_task_id r] :=
      splitOnChar_two '-' ['p', 'r', 'e'] (get_task_id r) (by decide) hnd
    simp [preEncoding, hsplit]
  · intro s
    simp [release_bootstrap_lock, setKey]
